import Mathlib

/-!
Shallow embedding of the connection-establishment layer of the reqwest fork
(`src/connect.rs`, `src/proxy.rs`): the CONNECT tunnel protocol, proxy
interception, the NO_PROXY domain matcher, environment-derived system
proxies, proxy-scheme auth configuration, and the connector's nodelay
policy.  Strings from the wire are modelled as `List Char` (the code works
on ASCII bytes); optional values as `Option`; panics and fallible results
as `Option`/`Except`; the mutable `HashMap` as an association list with
replace-on-insert.
-/

namespace Reqwest

/-- Outcome of the tunnel read loop in `connect.rs::tunnel`. -/
inductive TunnelOutcome where
  | ok
  | headersTooLong
  | authRequired
  | unsuccessful
  | eof
  deriving DecidableEq, Repr

/-- The request bytes built by `connect.rs::tunnel` before any read:
`format!("CONNECT {host}:{port} HTTP/1.1\r\nHost: {host}:{port}\r\n")`,
then the optional `User-Agent` line, then the optional
`Proxy-Authorization` line, then the final `\r\n`, in source order. -/
def tunnelRequestBuf (host : String) (port : Nat) (ua auth : Option String) :
    List Char :=
  let base :=
    ("CONNECT " ++ host ++ ":" ++ toString port ++ " HTTP/1.1\r\n" ++
      "Host: " ++ host ++ ":" ++ toString port ++ "\r\n").toList
  let b1 := match ua with
    | some u => base ++ ("User-Agent: " ++ u ++ "\r\n").toList
    | none => base
  let b2 := match auth with
    | some v => b1 ++ ("Proxy-Authorization: " ++ v ++ "\r\n").toList
    | none => b1
  b2 ++ "\r\n".toList

/-- One read of `connect.rs::tunnel` extends the accumulated bytes: the
fixed 8192-byte buffer means a read never returns more than the free
space `8192 - pos`, hence the `take`. -/
def tunnelRecvd (acc chunk : List Char) : List Char :=
  acc ++ chunk.take (8192 - acc.length)

/-- The read loop of `connect.rs::tunnel`: an empty read means EOF, and
after each read the accumulated bytes are inspected exactly as in the
source.  `none` means the supplied reads ran out with the loop still
waiting for more. -/
def tunnelReadLoop : List (List Char) → List Char → Option TunnelOutcome
  | [], _ => none
  | chunk :: rest, acc =>
    if chunk.isEmpty then some .eof
    else
      let recvd := tunnelRecvd acc chunk
      if "HTTP/1.1 200".toList.isPrefixOf recvd
          || "HTTP/1.0 200".toList.isPrefixOf recvd then
        if "\r\n\r\n".toList.isSuffixOf recvd then some .ok
        else if recvd.length = 8192 then some .headersTooLong
        else tunnelReadLoop rest recvd
      else if "HTTP/1.1 407".toList.isPrefixOf recvd then some .authRequired
      else some .unsuccessful

/-- `connect.rs::tunnel`: first writes the request buffer to the stream,
then runs the read loop; nothing else is written. -/
def tunnel (host : String) (port : Nat) (ua auth : Option String)
    (reads : List (List Char)) : List Char × Option TunnelOutcome :=
  (tunnelRequestBuf host port ua auth, tunnelReadLoop reads [])

/-- `proxy.rs::ProxyScheme`.  `auth` is the optional pre-encoded
`Proxy-Authorization` header value for `http`/`https`; SOCKS5 carries an
optional username/password pair; the custom variant's stream factory is
opaque to every claim and carries no payload here. -/
inductive ProxyScheme where
  | http (auth : Option String) (host : String)
  | https (auth : Option String) (host : String)
  | socks5 (addr : String) (auth : Option (String × String)) (remoteDns : Bool)
  | custom
  deriving DecidableEq, Repr

/-- Modelled from the spec: `crate::util::basic_auth` (outside `src/`)
deterministically builds a Basic `Proxy-Authorization` header value from a
username and password; only determinism matters for the claims here. -/
def encode_basic_auth (username password : String) : String :=
  "Basic " ++ username ++ ":" ++ password

namespace ProxyScheme

/-- `proxy.rs::ProxyScheme::maybe_http_auth`. -/
def maybe_http_auth : ProxyScheme → Option String
  | .http auth _ => auth
  | .https auth _ => auth
  | .socks5 _ _ _ => none
  | .custom => none

/-- `proxy.rs::ProxyScheme::set_basic_auth`; the `Custom` arm panics in the
source, modelled as `none`. -/
def set_basic_auth (s : ProxyScheme) (username password : String) :
    Option ProxyScheme :=
  match s with
  | .http _ host => some (.http (some (encode_basic_auth username password)) host)
  | .https _ host => some (.https (some (encode_basic_auth username password)) host)
  | .socks5 addr _ rd => some (.socks5 addr (some (username, password)) rd)
  | .custom => none

/-- `proxy.rs::ProxyScheme::set_custom_http_auth`; the `Socks5` and
`Custom` arms panic in the source, modelled as `none`. -/
def set_custom_http_auth (s : ProxyScheme) (headerValue : String) :
    Option ProxyScheme :=
  match s with
  | .http _ host => some (.http (some headerValue) host)
  | .https _ host => some (.https (some headerValue) host)
  | .socks5 _ _ _ => none
  | .custom => none

/-- `proxy.rs::ProxyScheme::if_no_auth`: fill the auth slot from `update`
only when it is unset; SOCKS5 and custom schemes are left alone. -/
def if_no_auth (s : ProxyScheme) (update : Option String) : ProxyScheme :=
  match s with
  | .http auth host => .http (if auth.isNone then update else auth) host
  | .https auth host => .https (if auth.isNone then update else auth) host
  | .socks5 addr auth rd => .socks5 addr auth rd
  | .custom => .custom

end ProxyScheme

/-- The destination abstraction `proxy.rs::Dst` (scheme, host, port). -/
structure Dst where
  scheme : String
  host : String
  port : Option Nat
  deriving DecidableEq, Repr

/-- `proxy.rs::Custom`: a user callback returning an optional fallible
proxy scheme, plus the registry-level auth applied via `if_no_auth`. -/
structure Custom where
  auth : Option String
  func : Dst → Option (Except Unit ProxyScheme)

/-- `proxy.rs::Custom::call`: invoke the callback, drop errors, and
backfill the registry-level auth only when the returned scheme's auth is
unset. -/
def Custom.call (c : Custom) (dst : Dst) : Option ProxyScheme :=
  (c.func dst).bind (fun r => r.toOption) |>.map (fun s => s.if_no_auth c.auth)

/-- `proxy.rs::Intercept`: the matching strategy of one proxy entry.  The
`System` map is an association list standing for the `HashMap`. -/
inductive Intercept where
  | all (s : ProxyScheme)
  | http (s : ProxyScheme)
  | https (s : ProxyScheme)
  | system (map : List (String × ProxyScheme))
  | custom (c : Custom)

/-- Association-list lookup, standing for `HashMap::get`. -/
def mapGet : List (String × ProxyScheme) → String → Option ProxyScheme
  | [], _ => none
  | (k, v) :: rest, key => if k = key then some v else mapGet rest key

/-- `proxy.rs::Proxy`: an intercept rule paired with an optional NoProxy
matcher.  The matcher is abstracted to its `contains` test on the host
(its internals are settled separately by the domain-matcher claims). -/
structure Proxy where
  intercept : Intercept
  noProxy : Option (String → Bool)

/-- `self.no_proxy.as_ref().map_or(false, |np| np.contains(uri.host()))`. -/
def inNoProxy : Option (String → Bool) → String → Bool
  | some np, host => np host
  | none, _ => false

/-- `proxy.rs::Proxy::intercept`: NoProxy exclusion first (host-only,
scheme-independent), then the rule kind decides. -/
def Proxy.interceptDst (p : Proxy) (dst : Dst) : Option ProxyScheme :=
  let inNoProxy := inNoProxy p.noProxy dst.host
  match p.intercept with
  | .all s => if !inNoProxy then some s else none
  | .http s => if !inNoProxy && dst.scheme = "http" then some s else none
  | .https s => if !inNoProxy && dst.scheme = "https" then some s else none
  | .system map => if inNoProxy then none else mapGet map dst.scheme
  | .custom c => if !inNoProxy then c.call dst else none

/-- The proxy loop of `connect.rs::Connector::call`: the first entry whose
`intercept` yields a scheme wins; later entries are never consulted. -/
def interceptAll : List Proxy → Dst → Option ProxyScheme
  | [], _ => none
  | p :: rest, dst =>
    match p.interceptDst dst with
    | some s => some s
    | none => interceptAll rest dst

/-- Which connection path `connect.rs::Connector` took for a request. -/
inductive ConnPath where
  | direct
  | plainHttpProxy
  | tunneled
  | socks
  | customConn
  deriving DecidableEq, Repr

/-- The observable result of one connect: the path, the `Conn::is_proxy`
flag (is *plain text HTTP proxy*), whether the transport was created by
the connector's own TCP connector (whose sockets start with the
user-configured `nodelay`), whether the temporary nodelay override of
`connect_with_maybe_proxy` was applied, and the transport's final nodelay
setting (`none` when an external library created the socket and this
layer never touched its settings). -/
structure SimConn where
  path : ConnPath
  isProxy : Bool
  viaHttpConnector : Bool
  overrideApplied : Bool
  finalNodelay : Option Bool
  deriving DecidableEq, Repr

/-- `connect.rs::Connector::connect_with_maybe_proxy` (TLS build): when the
configured `nodelay` is false and the target URI scheme is `https`, the
cloned connector is switched to `nodelay = true` before the handshake, and
the socket is switched back to `false` right after; otherwise the socket
keeps the connector's configured value. -/
def connectWithMaybeProxySim (nodelay : Bool) (dst : Dst) (isProxy : Bool)
    (path : ConnPath) : SimConn :=
  let ov := !nodelay && dst.scheme = "https"
  let initial := if ov then true else nodelay
  let restored := (dst.scheme = "https" : Bool) && !nodelay
  { path := path
    isProxy := isProxy
    viaHttpConnector := true
    overrideApplied := ov
    finalNodelay := some (if restored then false else initial) }

/-- `connect.rs::Connector::connect_via_proxy` (TLS build): SOCKS5 and
custom schemes dispatch to their own connectors (sockets created by
external libraries, no nodelay handling, `is_proxy = false`); an
http/https proxy scheme tunnels when the destination scheme is `https`
(the proxy socket comes from the plain cloned connector, no override,
`is_proxy = false`) and otherwise forwards in plain text through
`connect_with_maybe_proxy(proxy_dst, true)`. -/
def connectViaProxySim (nodelay : Bool) (dst : Dst) :
    ProxyScheme → SimConn
  | .socks5 _ _ _ =>
    { path := .socks, isProxy := false, viaHttpConnector := false
      overrideApplied := false, finalNodelay := none }
  | .custom =>
    { path := .customConn, isProxy := false, viaHttpConnector := false
      overrideApplied := false, finalNodelay := none }
  | .http _ host =>
    if dst.scheme = "https" then
      { path := .tunneled, isProxy := false, viaHttpConnector := true
        overrideApplied := false, finalNodelay := some nodelay }
    else
      connectWithMaybeProxySim nodelay
        { scheme := "http", host := host, port := none } true .plainHttpProxy
  | .https _ host =>
    if dst.scheme = "https" then
      { path := .tunneled, isProxy := false, viaHttpConnector := true
        overrideApplied := false, finalNodelay := some nodelay }
    else
      connectWithMaybeProxySim nodelay
        { scheme := "https", host := host, port := none } true .plainHttpProxy

/-- `connect.rs::Connector::call`: consult the proxies in order; on a
match connect via the proxy, otherwise connect directly. -/
def connectSim (nodelay : Bool) (proxies : List Proxy) (dst : Dst) : SimConn :=
  match interceptAll proxies dst with
  | some ps => connectViaProxySim nodelay dst ps
  | none => connectWithMaybeProxySim nodelay dst false .direct

/-- `proxy.rs::DomainMatcher::contains`: the sequential rule loop.  The
host and rules are char lists (the code compares ASCII bytes); note the
wildcard arm is only reached when `ends_with` failed. -/
def domainMatcherContains (rules : List (List Char)) (domain : List Char) :
    Bool :=
  match rules with
  | [] => false
  | d :: rest =>
    if d = domain ∨ (d.head? = some '.' ∧ d.tail = domain) then true
    else if d.isSuffixOf domain then
      if d.head? = some '.' then true
      else if domain[domain.length - d.length - 1]? = some '.' then true
      else domainMatcherContains rest domain
    else if d = ['*'] then true
    else domainMatcherContains rest domain

/-- The per-rule match condition exactly as the claim words it: equal, or
equal after stripping the rule's leading dot, or a dot-bounded suffix, or
the literal wildcard. -/
def domainRuleMatchesClaim (d domain : List Char) : Bool :=
  d = domain ∨ (d.head? = some '.' ∧ d.tail = domain)
    ∨ (d.isSuffixOf domain ∧
        (d.head? = some '.'
          ∨ domain[domain.length - d.length - 1]? = some '.'))
    ∨ d = ['*']

/-- The per-rule match condition amended to the code: the wildcard arm
applies only when the host does not end with the rule. -/
def domainRuleMatchesAmended (d domain : List Char) : Bool :=
  d = domain ∨ (d.head? = some '.' ∧ d.tail = domain)
    ∨ (d.isSuffixOf domain ∧
        (d.head? = some '.'
          ∨ domain[domain.length - d.length - 1]? = some '.'))
    ∨ (¬ d.isSuffixOf domain ∧ d = ['*'])

/-- The system proxy map (`HashMap<String, ProxyScheme>`) as an
association list. -/
def SystemProxyMap := List (String × ProxyScheme)

/-- `HashMap::insert`: replace an existing binding, append otherwise. -/
def mapInsert : List (String × ProxyScheme) → String → ProxyScheme →
    List (String × ProxyScheme)
  | [], k, v => [(k, v)]
  | (k', v') :: rest, k, v =>
    if k' = k then (k, v) :: rest else (k', v') :: mapInsert rest k v

/-- The process environment, abstracted to a lookup function. -/
def Env := String → Option String

/-- An abstract stand-in for `IntoProxyScheme::into_proxy_scheme` on an
environment value (URL parsing lives in external crates); `none` means
the value fails to parse as a supported proxy scheme. -/
def ParseProxy := String → Option ProxyScheme

/-- `addr.trim().is_empty()`: the address is empty or whitespace-only. -/
def trimIsEmpty (addr : String) : Bool :=
  addr.toList.all Char.isWhitespace

/-- `proxy.rs::insert_proxy`: reject an empty or whitespace-only address,
try to parse it, and on success insert it under `scheme`; the returned
flag reports whether an insertion happened, and failures are silent. -/
def insert_proxy (parse : ParseProxy) (proxies : List (String × ProxyScheme))
    (scheme addr : String) : Bool × List (String × ProxyScheme) :=
  if trimIsEmpty addr then (false, proxies)
  else
    match parse addr with
    | some validAddr => (true, mapInsert proxies scheme validAddr)
    | none => (false, proxies)

/-- `proxy.rs::insert_from_env`: read the variable and delegate to
`insert_proxy`; an unset variable inserts nothing. -/
def insert_from_env (parse : ParseProxy) (env : Env)
    (proxies : List (String × ProxyScheme)) (scheme var : String) :
    Bool × List (String × ProxyScheme) :=
  match env var with
  | some val => insert_proxy parse proxies scheme val
  | none => (false, proxies)

/-- `proxy.rs::is_cgi`: the `REQUEST_METHOD` variable is present. -/
def is_cgi (env : Env) : Bool :=
  (env "REQUEST_METHOD").isSome

/-- `proxy.rs::get_from_environment`: `ALL_PROXY` for both entries (with a
short-circuit `&&` exactly as in the source, falling back to lowercase
`all_proxy` unless both uppercase inserts succeeded), then `HTTP_PROXY` /
`http_proxy` for `http` unless running under CGI, then `HTTPS_PROXY` /
`https_proxy` for `https`. -/
def get_from_environment (parse : ParseProxy) (env : Env) :
    List (String × ProxyScheme) :=
  let m0 : List (String × ProxyScheme) := []
  let r1 := insert_from_env parse env m0 "http" "ALL_PROXY"
  let r2 := if r1.1 then insert_from_env parse env r1.2 "https" "ALL_PROXY"
            else (false, r1.2)
  let m3 :=
    if r1.1 && r2.1 then r2.2
    else
      let ra := insert_from_env parse env r2.2 "http" "all_proxy"
      (insert_from_env parse env ra.2 "https" "all_proxy").2
  let m4 :=
    if is_cgi env then m3
    else
      let rh := insert_from_env parse env m3 "http" "HTTP_PROXY"
      if rh.1 then rh.2
      else (insert_from_env parse env rh.2 "http" "http_proxy").2
  let rs := insert_from_env parse env m4 "https" "HTTPS_PROXY"
  if rs.1 then rs.2
  else (insert_from_env parse env rs.2 "https" "https_proxy").2

/-- A URL parse failure as `IntoProxyScheme::into_proxy_scheme` inspects
it: `noScheme` records whether the error chain contains
`url::ParseError::RelativeUrlWithoutBase` or `BadScheme`, and `id`
distinguishes distinct errors. -/
structure UrlError where
  noScheme : Bool
  id : Nat
  deriving DecidableEq, Repr

/-- `proxy.rs::IntoProxyScheme::into_proxy_scheme` for strings: strict
parse first; when the failure indicates a missing scheme, retry with an
`http://` prefix; a retry failure reports the original error.  URL
parsing and `ProxyScheme::parse` live outside this file's sources and are
taken as parameters (`parseUrl`, `schemeParse`), with the parsed URL left
as the string it normalises to. -/
def into_proxy_scheme (parseUrl : String → Except UrlError String)
    (schemeParse : String → Except UrlError ProxyScheme) (s : String) :
    Except UrlError ProxyScheme :=
  match parseUrl s with
  | .ok url => schemeParse url
  | .error e =>
    if !e.noScheme then .error e
    else
      match parseUrl ("http://" ++ s) with
      | .ok url => schemeParse url
      | .error _ => .error e

/-! ## Theorems -/

/-- Claim C1: for every host, port, optional user-agent and optional
proxy-authorization value, the tunnel operation writes to the stream —
before the read loop consumes anything — exactly the bytes
`CONNECT host:port HTTP/1.1\r\nHost: host:port\r\n`, then
`User-Agent: value\r\n` iff a user-agent was supplied, then
`Proxy-Authorization: value\r\n` iff an auth value was supplied, then
`\r\n`, in that order with no other bytes. -/
theorem tunnel_request_bytes_exact (host : String) (port : Nat)
    (ua auth : Option String) (reads : List (List Char)) :
    (tunnel host port ua auth reads).1 =
      ("CONNECT " ++ host ++ ":" ++ toString port ++ " HTTP/1.1\r\n").toList
      ++ ("Host: " ++ host ++ ":" ++ toString port ++ "\r\n").toList
      ++ (ua.elim [] fun u => ("User-Agent: " ++ u ++ "\r\n").toList)
      ++ (auth.elim [] fun v => ("Proxy-Authorization: " ++ v ++ "\r\n").toList)
      ++ "\r\n".toList := by
  cases ua <;> cases auth <;>
    simp [tunnel, tunnelRequestBuf, Option.elim, String.data_append,
      String.toList, List.append_assoc]

/-- Claim C2: the tunnel read loop accumulates into a fixed 8192-byte
buffer and decides exactly as follows — a zero-byte read fails with
"unexpected eof while tunneling"; with a 200 prefix (`HTTP/1.1 200` or
`HTTP/1.0 200`) and a `\r\n\r\n` terminator it succeeds; with a 200
prefix, no terminator and a full buffer it fails with "proxy headers too
long for tunnel"; with a 200 prefix, no terminator and room left it keeps
reading; with an `HTTP/1.1 407` prefix it fails with "proxy
authentication required"; with any other content it fails with
"unsuccessful tunnel". -/
theorem tunnel_read_loop_cases :
    (∀ (rest : List (List Char)) (acc : List Char),
      tunnelReadLoop ([] :: rest) acc = some TunnelOutcome.eof)
    ∧ (∀ (chunk : List Char) (rest : List (List Char)) (acc : List Char),
      chunk ≠ [] →
      ("HTTP/1.1 200".toList.isPrefixOf (tunnelRecvd acc chunk)
        || "HTTP/1.0 200".toList.isPrefixOf (tunnelRecvd acc chunk)) = true →
      "\r\n\r\n".toList.isSuffixOf (tunnelRecvd acc chunk) = true →
      tunnelReadLoop (chunk :: rest) acc = some TunnelOutcome.ok)
    ∧ (∀ (chunk : List Char) (rest : List (List Char)) (acc : List Char),
      chunk ≠ [] →
      ("HTTP/1.1 200".toList.isPrefixOf (tunnelRecvd acc chunk)
        || "HTTP/1.0 200".toList.isPrefixOf (tunnelRecvd acc chunk)) = true →
      "\r\n\r\n".toList.isSuffixOf (tunnelRecvd acc chunk) = false →
      (tunnelRecvd acc chunk).length = 8192 →
      tunnelReadLoop (chunk :: rest) acc = some TunnelOutcome.headersTooLong)
    ∧ (∀ (chunk : List Char) (rest : List (List Char)) (acc : List Char),
      chunk ≠ [] →
      ("HTTP/1.1 200".toList.isPrefixOf (tunnelRecvd acc chunk)
        || "HTTP/1.0 200".toList.isPrefixOf (tunnelRecvd acc chunk)) = true →
      "\r\n\r\n".toList.isSuffixOf (tunnelRecvd acc chunk) = false →
      (tunnelRecvd acc chunk).length ≠ 8192 →
      tunnelReadLoop (chunk :: rest) acc =
        tunnelReadLoop rest (tunnelRecvd acc chunk))
    ∧ (∀ (chunk : List Char) (rest : List (List Char)) (acc : List Char),
      chunk ≠ [] →
      ("HTTP/1.1 200".toList.isPrefixOf (tunnelRecvd acc chunk)
        || "HTTP/1.0 200".toList.isPrefixOf (tunnelRecvd acc chunk)) = false →
      "HTTP/1.1 407".toList.isPrefixOf (tunnelRecvd acc chunk) = true →
      tunnelReadLoop (chunk :: rest) acc = some TunnelOutcome.authRequired)
    ∧ (∀ (chunk : List Char) (rest : List (List Char)) (acc : List Char),
      chunk ≠ [] →
      ("HTTP/1.1 200".toList.isPrefixOf (tunnelRecvd acc chunk)
        || "HTTP/1.0 200".toList.isPrefixOf (tunnelRecvd acc chunk)) = false →
      "HTTP/1.1 407".toList.isPrefixOf (tunnelRecvd acc chunk) = false →
      tunnelReadLoop (chunk :: rest) acc =
        some TunnelOutcome.unsuccessful) := by
  refine ⟨?_, ?_, ?_, ?_, ?_, ?_⟩
  · intro rest acc
    simp [tunnelReadLoop]
  · intro chunk rest acc hne h200 hterm
    cases chunk with
    | nil => exact absurd rfl hne
    | cons c cs =>
      simp at h200 hterm
      simp [tunnelReadLoop, h200, hterm]
  · intro chunk rest acc hne h200 hterm hfull
    cases chunk with
    | nil => exact absurd rfl hne
    | cons c cs =>
      simp at h200
      rw [Bool.eq_false_iff] at hterm
      simp at hterm
      simp [tunnelReadLoop, h200, hterm, hfull]
  · intro chunk rest acc hne h200 hterm hroom
    cases chunk with
    | nil => exact absurd rfl hne
    | cons c cs =>
      simp at h200
      rw [Bool.eq_false_iff] at hterm
      simp at hterm
      simp [tunnelReadLoop, h200, hterm, hroom]
  · intro chunk rest acc hne h200 h407
    cases chunk with
    | nil => exact absurd rfl hne
    | cons c cs =>
      rw [Bool.eq_false_iff] at h200
      simp at h200 h407
      simp [tunnelReadLoop, h200, h407]
  · intro chunk rest acc hne h200 h407
    cases chunk with
    | nil => exact absurd rfl hne
    | cons c cs =>
      rw [Bool.eq_false_iff] at h200
      rw [Bool.eq_false_iff] at h407
      simp at h200 h407
      simp [tunnelReadLoop, h200, h407]

/-- Witness for C2: the 407 case of `tunnel_read_loop_cases` applied to
the repository's own test response, plus direct evaluations of the other
test vectors. -/
theorem tunnel_read_loop_cases_witness :
    tunnelReadLoop ["HTTP/1.1 407 Proxy Authentication Required\r\n\r\n".toList] []
      = some TunnelOutcome.authRequired
    ∧ tunnelReadLoop ["HTTP/1.1 200 OK\r\n\r\n".toList] []
      = some TunnelOutcome.ok
    ∧ tunnelReadLoop ["HTTP/1.1 200 OK".toList, []] []
      = some TunnelOutcome.eof
    ∧ tunnelReadLoop ["foo bar baz hallo".toList] []
      = some TunnelOutcome.unsuccessful := by
  refine ⟨?_, ?_, ?_, ?_⟩
  · exact tunnel_read_loop_cases.2.2.2.2.1
      "HTTP/1.1 407 Proxy Authentication Required\r\n\r\n".toList [] []
      (by decide) (by decide) (by decide)
  · exact tunnel_read_loop_cases.2.1 "HTTP/1.1 200 OK\r\n\r\n".toList [] []
      (by decide) (by decide) (by decide)
  · have h := tunnel_read_loop_cases.2.2.2.1 "HTTP/1.1 200 OK".toList [[]] []
      (by decide) (by decide) (by decide) (by decide)
    rw [h]
    exact tunnel_read_loop_cases.1 [] (tunnelRecvd [] "HTTP/1.1 200 OK".toList)
  · exact tunnel_read_loop_cases.2.2.2.2.2 "foo bar baz hallo".toList [] []
      (by decide) (by decide) (by decide)

/-- Claim C3: proxies are evaluated in configured order with the first
entry yielding a scheme winning and later entries never consulted; an
entry whose NoProxy matcher contains the destination host yields nothing
regardless of its rule kind; otherwise `All` always yields its scheme,
`Http`/`Https` yield theirs exactly when the destination scheme is
`http`/`https`, and `System` yields its map's entry for the destination
scheme; when no entry yields a scheme the connector connects directly. -/
theorem proxy_intercept_order :
    (∀ (p : Proxy) (ps : List Proxy) (dst : Dst) (s : ProxyScheme),
      p.interceptDst dst = some s → interceptAll (p :: ps) dst = some s)
    ∧ (∀ (p : Proxy) (ps : List Proxy) (dst : Dst),
      p.interceptDst dst = none →
      interceptAll (p :: ps) dst = interceptAll ps dst)
    ∧ (∀ (i : Intercept) (np : Option (String → Bool)) (dst : Dst),
      inNoProxy np dst.host = true →
      Proxy.interceptDst ⟨i, np⟩ dst = none)
    ∧ (∀ (s : ProxyScheme) (np : Option (String → Bool)) (dst : Dst),
      inNoProxy np dst.host = false →
      Proxy.interceptDst ⟨.all s, np⟩ dst = some s)
    ∧ (∀ (s : ProxyScheme) (np : Option (String → Bool)) (dst : Dst),
      inNoProxy np dst.host = false →
      Proxy.interceptDst ⟨.http s, np⟩ dst =
        (if dst.scheme = "http" then some s else none))
    ∧ (∀ (s : ProxyScheme) (np : Option (String → Bool)) (dst : Dst),
      inNoProxy np dst.host = false →
      Proxy.interceptDst ⟨.https s, np⟩ dst =
        (if dst.scheme = "https" then some s else none))
    ∧ (∀ (map : List (String × ProxyScheme)) (np : Option (String → Bool))
        (dst : Dst),
      inNoProxy np dst.host = false →
      Proxy.interceptDst ⟨.system map, np⟩ dst = mapGet map dst.scheme)
    ∧ (∀ (nodelay : Bool) (proxies : List Proxy) (dst : Dst),
      interceptAll proxies dst = none →
      (connectSim nodelay proxies dst).path = ConnPath.direct) := by
  refine ⟨?_, ?_, ?_, ?_, ?_, ?_, ?_, ?_⟩
  · intro p ps dst s h
    simp [interceptAll, h]
  · intro p ps dst h
    simp [interceptAll, h]
  · intro i np dst h
    cases i <;> simp [Proxy.interceptDst, h]
  · intro s np dst h
    simp [Proxy.interceptDst, h]
  · intro s np dst h
    simp [Proxy.interceptDst, h]
  · intro s np dst h
    simp [Proxy.interceptDst, h]
  · intro map np dst h
    simp [Proxy.interceptDst, h]
  · intro nodelay proxies dst h
    simp [connectSim, h, connectWithMaybeProxySim]

/-- Witness for C3: a NoProxy-suppressed `All` entry followed by an
`Https` entry, against `https://hello.no.proxy.tld` (the spec's own
example): the first entry yields nothing and the second yields its
scheme, and with no entries the connection is direct. -/
theorem proxy_intercept_order_witness :
    interceptAll
      [⟨.all (.http none "p1"), some (fun h => h = "hello.no.proxy.tld")⟩,
       ⟨.https (.http none "p2"), none⟩]
      ⟨"https", "hello.no.proxy.tld", none⟩ = some (.http none "p2")
    ∧ (connectSim true [] ⟨"https", "hello.no.proxy.tld", none⟩).path
        = ConnPath.direct := by
  constructor
  · have h1 := proxy_intercept_order.2.2.1 (.all (.http none "p1"))
      (some (fun h => h = "hello.no.proxy.tld"))
      ⟨"https", "hello.no.proxy.tld", none⟩ (by simp [inNoProxy])
    have h2 := proxy_intercept_order.2.2.2.2.2.1 (.http none "p2")
      (none : Option (String → Bool))
      ⟨"https", "hello.no.proxy.tld", none⟩ (by simp [inNoProxy])
    have h3 := proxy_intercept_order.2.1
      ⟨.all (.http none "p1"), some (fun h => h = "hello.no.proxy.tld")⟩
      [⟨.https (.http none "p2"), none⟩]
      ⟨"https", "hello.no.proxy.tld", none⟩ h1
    rw [h3]
    have h4 := proxy_intercept_order.1
      ⟨.https (.http none "p2"), none⟩ []
      ⟨"https", "hello.no.proxy.tld", none⟩ (.http none "p2")
      (by rw [h2]; simp)
    exact h4
  · exact proxy_intercept_order.2.2.2.2.2.2.2 true []
      ⟨"https", "hello.no.proxy.tld", none⟩ rfl

/-- Counterexample to claim C4 as stated: for the rule list `["*"]` and
the host `"a*"` (not an IP address), the claim's characterisation holds
of some rule (the rule is the literal `"*"`), yet the matcher returns
`false` — the wildcard arm of the loop is only reached when the host does
not end with the rule, and here `"a*"` ends with `"*"` while failing both
dot-boundary tests. -/
theorem domain_matcher_claim_counterexample :
    domainMatcherContains [['*']] ['a', '*'] = false
    ∧ ([['*']].any fun d => domainRuleMatchesClaim d ['a', '*']) = true := by
  decide

/-- Claim C4 (amended): `DomainMatcher::contains` returns true iff some
rule equals the host exactly, or equals the host after stripping the
rule's leading dot, or the host ends with the rule with a dot boundary
(the rule starts with a dot, or the host character immediately preceding
the matched suffix is a dot), or the rule is the literal `"*"` **and the
host does not end with the rule**; in particular, with rules `".foo.bar"`
and `"bar.foo"`: `foo.bar`, `www.foo.bar`, `bar.foo` and `www.bar.foo`
match, while `notfoo.bar` and `notbar.foo` do not. -/
theorem domain_matcher_contains_iff :
    (∀ (rules : List (List Char)) (domain : List Char),
      domainMatcherContains rules domain
        = rules.any (fun d => domainRuleMatchesAmended d domain))
    ∧ domainMatcherContains [".foo.bar".toList, "bar.foo".toList]
        "foo.bar".toList = true
    ∧ domainMatcherContains [".foo.bar".toList, "bar.foo".toList]
        "www.foo.bar".toList = true
    ∧ domainMatcherContains [".foo.bar".toList, "bar.foo".toList]
        "bar.foo".toList = true
    ∧ domainMatcherContains [".foo.bar".toList, "bar.foo".toList]
        "www.bar.foo".toList = true
    ∧ domainMatcherContains [".foo.bar".toList, "bar.foo".toList]
        "notfoo.bar".toList = false
    ∧ domainMatcherContains [".foo.bar".toList, "bar.foo".toList]
        "notbar.foo".toList = false := by
  refine ⟨?_, by decide, by decide, by decide, by decide, by decide, by decide⟩
  intro rules domain
  induction rules with
  | nil => rfl
  | cons d rest ih =>
    by_cases h1 : d = domain ∨ (d.head? = some '.' ∧ d.tail = domain)
    · have hf : domainRuleMatchesAmended d domain = true := by
        simp [domainRuleMatchesAmended]
        tauto
      rcases h1 with h | ⟨ha, hb⟩
      · subst h
        simp [domainMatcherContains, hf]
      · simp [domainMatcherContains, hf, ha, hb]
    · rw [not_or] at h1
      obtain ⟨h1a, h1b⟩ := h1
      by_cases h2 : d <:+ domain
      · by_cases h3 : d.head? = some '.'
        · have hf : domainRuleMatchesAmended d domain = true := by
            simp [domainRuleMatchesAmended]
            tauto
          simp [domainMatcherContains, hf, h1a, h1b, h2, h3]
        · by_cases h4 : domain[domain.length - d.length - 1]? = some '.'
          · have hf : domainRuleMatchesAmended d domain = true := by
              simp [domainRuleMatchesAmended]
              tauto
            simp [domainMatcherContains, hf, h1a, h1b, h2, h3, h4]
          · have hf : domainRuleMatchesAmended d domain = false := by
              simp [domainRuleMatchesAmended]
              tauto
            simp [domainMatcherContains, hf, h1a, h1b, h2, h3, h4, ih]
      · by_cases h5 : d = ['*']
        · subst h5
          have hf : domainRuleMatchesAmended ['*'] domain = true := by
            simp [domainRuleMatchesAmended]
            tauto
          simp [domainMatcherContains, hf, h1a, h1b, h2]
        · have hf : domainRuleMatchesAmended d domain = false := by
            simp [domainRuleMatchesAmended]
            tauto
          simp [domainMatcherContains, hf, h1a, h1b, h2, h5, ih]

/-- Claim C5: the `Conn`'s *is plain text HTTP proxy* flag is true exactly
when the destination is forwarded through an `Http`/`Https` proxy scheme
without a CONNECT tunnel, and false on direct, tunneled-TLS, SOCKS5 and
custom-connector connections. -/
theorem conn_is_plain_http_proxy_iff (nodelay : Bool) (proxies : List Proxy)
    (dst : Dst) :
    (connectSim nodelay proxies dst).isProxy = true
      ↔ (connectSim nodelay proxies dst).path = ConnPath.plainHttpProxy := by
  cases h : interceptAll proxies dst with
  | none => simp [connectSim, h, connectWithMaybeProxySim]
  | some s =>
    cases s with
    | socks5 addr auth rd => simp [connectSim, h, connectViaProxySim]
    | custom => simp [connectSim, h, connectViaProxySim]
    | http a host =>
      by_cases hs : dst.scheme = "https" <;>
        simp [connectSim, h, connectViaProxySim, connectWithMaybeProxySim, hs]
    | https a host =>
      by_cases hs : dst.scheme = "https" <;>
        simp [connectSim, h, connectViaProxySim, connectWithMaybeProxySim, hs]

/-- On any path through `connect_with_maybe_proxy` the socket ends with
the user-configured nodelay: either no override was applied, or the
override was applied and undone right after the handshake. -/
theorem connectWithMaybeProxySim_final (n : Bool) (dst : Dst) (isP : Bool)
    (path : ConnPath) :
    (connectWithMaybeProxySim n dst isP path).finalNodelay = some n := by
  by_cases hs : dst.scheme = "https" <;> cases n <;>
    simp [connectWithMaybeProxySim, hs]

/-- Counterexample to claim C9 as stated: with configured
`nodelay = false`, an `http`-destination request intercepted by a proxy
whose own URI scheme is `https` (e.g. `Proxy::http("https://secure.example")`,
the crate's own doc example) is a proxy path — a plaintext forward, no
CONNECT tunnel — and yet `connect_with_maybe_proxy` applies the temporary
nodelay override for the TLS handshake with the proxy. -/
theorem nodelay_override_claim_counterexample :
    (connectSim false
      [⟨.http (.https none "secure.example"), none⟩]
      ⟨"http", "example.com", none⟩).overrideApplied = true
    ∧ (connectSim false
      [⟨.http (.https none "secure.example"), none⟩]
      ⟨"http", "example.com", none⟩).path = ConnPath.plainHttpProxy
    ∧ interceptAll [⟨.http (.https none "secure.example"), none⟩]
        ⟨"http", "example.com", none⟩
        = some (.https none "secure.example") := by
  refine ⟨rfl, rfl, rfl⟩

/-- Claim C9 (amended): the temporary nodelay override (force
`nodelay = true` before a TLS handshake when the configured default is
false, restore afterwards) is applied exactly when the URI handed to the
TCP/TLS connecting step has scheme `https` — that is, on direct `https`
destinations with no proxy, and on plaintext proxy forwards whose proxy
URI scheme is `https`; tunnel, SOCKS5 and custom paths never apply it;
and on every path whose transport is created by the connector's own TCP
connector the final nodelay setting equals the user-configured value,
while SOCKS5 and custom transports are created externally and no nodelay
setting is applied to them. -/
theorem nodelay_policy (nodelay : Bool) (proxies : List Proxy) (dst : Dst) :
    ((connectSim nodelay proxies dst).path = ConnPath.tunneled
        ∨ (connectSim nodelay proxies dst).path = ConnPath.socks
        ∨ (connectSim nodelay proxies dst).path = ConnPath.customConn →
      (connectSim nodelay proxies dst).overrideApplied = false)
    ∧ ((connectSim nodelay proxies dst).path = ConnPath.direct →
      ((connectSim nodelay proxies dst).overrideApplied = true
        ↔ nodelay = false ∧ dst.scheme = "https"))
    ∧ ((connectSim nodelay proxies dst).path = ConnPath.plainHttpProxy →
      ((connectSim nodelay proxies dst).overrideApplied = true
        ↔ nodelay = false
          ∧ ∃ a h, interceptAll proxies dst = some (.https a h)))
    ∧ ((connectSim nodelay proxies dst).viaHttpConnector = true →
      (connectSim nodelay proxies dst).finalNodelay = some nodelay)
    ∧ ((connectSim nodelay proxies dst).viaHttpConnector = false →
      (connectSim nodelay proxies dst).finalNodelay = none) := by
  cases h : interceptAll proxies dst with
  | none =>
    by_cases hs : dst.scheme = "https" <;> cases nodelay <;>
      refine ⟨?_, ?_, ?_, ?_, ?_⟩ <;>
        simp [connectSim, h, connectWithMaybeProxySim, hs,
          Bool.not_eq_true']
  | some s =>
    cases s with
    | socks5 addr auth rd =>
      refine ⟨?_, ?_, ?_, ?_, ?_⟩ <;> simp [connectSim, h, connectViaProxySim]
    | custom =>
      refine ⟨?_, ?_, ?_, ?_, ?_⟩ <;> simp [connectSim, h, connectViaProxySim]
    | http a host =>
      by_cases hs : dst.scheme = "https" <;>
        refine ⟨?_, ?_, ?_, ?_, ?_⟩ <;>
          simp [connectSim, h, connectViaProxySim, connectWithMaybeProxySim,
            connectWithMaybeProxySim_final, hs]
    | https a host =>
      by_cases hs : dst.scheme = "https" <;>
        refine ⟨?_, ?_, ?_, ?_, ?_⟩ <;>
          simp [connectSim, h, connectViaProxySim, connectWithMaybeProxySim,
            connectWithMaybeProxySim_final, hs, Bool.not_eq_true']

/-- Witness for C9 (amended): the direct-path clause of `nodelay_policy`
at a concrete https destination with no proxies: the override is applied
when the configured default is false, and the final nodelay equals the
configured value. -/
theorem nodelay_policy_witness :
    ((connectSim false [] ⟨"https", "example.com", none⟩).overrideApplied
      = true)
    ∧ (connectSim false [] ⟨"https", "example.com", none⟩).finalNodelay
      = some false := by
  constructor
  · exact ((nodelay_policy false [] ⟨"https", "example.com", none⟩).2.1
      rfl).mpr ⟨rfl, rfl⟩
  · exact (nodelay_policy false [] ⟨"https", "example.com", none⟩).2.2.2.1 rfl

/-- Claim C6: the system proxy map is built in order — `ALL_PROXY`
populates both entries, then `HTTP_PROXY` overrides `http` but is skipped
entirely (lowercase variant included) when `REQUEST_METHOD` is present,
then `HTTPS_PROXY` overrides `https`.  Conjunct 1: only
`ALL_PROXY=http://p1` yields `http`→p1 and `https`→p1.  Conjunct 2:
additionally `HTTP_PROXY=http://p2` yields `http`→p2, `https`→p1.
Conjunct 3: under CGI the result is independent of the `HTTP_PROXY` and
`http_proxy` values. -/
theorem sys_proxy_env_precedence :
    (∀ (parse : ParseProxy) (s1 : ProxyScheme),
      parse "http://p1" = some s1 →
      get_from_environment parse
        (fun v => if v = "ALL_PROXY" then some "http://p1" else none)
        = [("http", s1), ("https", s1)])
    ∧ (∀ (parse : ParseProxy) (s1 s2 : ProxyScheme),
      parse "http://p1" = some s1 → parse "http://p2" = some s2 →
      get_from_environment parse
        (fun v => if v = "ALL_PROXY" then some "http://p1"
                  else if v = "HTTP_PROXY" then some "http://p2" else none)
        = [("http", s2), ("https", s1)])
    ∧ (∀ (parse : ParseProxy) (env envH : Env),
      is_cgi env = true →
      (∀ v, v ≠ "HTTP_PROXY" → v ≠ "http_proxy" → envH v = env v) →
      get_from_environment parse envH = get_from_environment parse env)
    ∧ (∀ (parse : ParseProxy) (s1 : ProxyScheme),
      parse "http://p1" = some s1 →
      get_from_environment parse
        (fun v => if v = "all_proxy" then some "http://p1" else none)
        = [("http", s1), ("https", s1)])
    ∧ (∀ (parse : ParseProxy) (s1 s2 : ProxyScheme),
      parse "http://p1" = some s1 → parse "http://p2" = some s2 →
      get_from_environment parse
        (fun v => if v = "ALL_PROXY" then some "http://p1"
                  else if v = "http_proxy" then some "http://p2" else none)
        = [("http", s2), ("https", s1)])
    ∧ (∀ (parse : ParseProxy) (s1 s2 : ProxyScheme),
      parse "http://p1" = some s1 → parse "http://p2" = some s2 →
      get_from_environment parse
        (fun v => if v = "ALL_PROXY" then some "http://p1"
                  else if v = "HTTPS_PROXY" then some "http://p2" else none)
        = [("http", s1), ("https", s2)]) := by
  refine ⟨?_, ?_, ?_, ?_, ?_, ?_⟩
  · intro parse s1 hp
    have ht : trimIsEmpty "http://p1" = false := by decide
    simp [get_from_environment, insert_from_env, insert_proxy, is_cgi,
      mapInsert, ht, hp]
  · intro parse s1 s2 hp1 hp2
    have ht1 : trimIsEmpty "http://p1" = false := by decide
    have ht2 : trimIsEmpty "http://p2" = false := by decide
    simp [get_from_environment, insert_from_env, insert_proxy, is_cgi,
      mapInsert, ht1, ht2, hp1, hp2]
  · intro parse env envH hcgi hagree
    have hA := hagree "ALL_PROXY" (by decide) (by decide)
    have ha := hagree "all_proxy" (by decide) (by decide)
    have hR := hagree "REQUEST_METHOD" (by decide) (by decide)
    have hS := hagree "HTTPS_PROXY" (by decide) (by decide)
    have hs2 := hagree "https_proxy" (by decide) (by decide)
    have hcgi2 : is_cgi envH = true := by
      unfold is_cgi
      rw [hR]
      exact hcgi
    simp only [get_from_environment, insert_from_env, hA, ha, hR, hS, hs2,
      hcgi, hcgi2, if_true]
  · intro parse s1 hp
    have ht : trimIsEmpty "http://p1" = false := by decide
    simp [get_from_environment, insert_from_env, insert_proxy, is_cgi,
      mapInsert, ht, hp]
  · intro parse s1 s2 hp1 hp2
    have ht1 : trimIsEmpty "http://p1" = false := by decide
    have ht2 : trimIsEmpty "http://p2" = false := by decide
    simp [get_from_environment, insert_from_env, insert_proxy, is_cgi,
      mapInsert, ht1, ht2, hp1, hp2]
  · intro parse s1 s2 hp1 hp2
    have ht1 : trimIsEmpty "http://p1" = false := by decide
    have ht2 : trimIsEmpty "http://p2" = false := by decide
    simp [get_from_environment, insert_from_env, insert_proxy, is_cgi,
      mapInsert, ht1, ht2, hp1, hp2]

/-- Witness for C6: all three conjuncts of `sys_proxy_env_precedence` at a
concrete parse function mapping `http://p1` and `http://p2` to distinct
schemes, and a concrete CGI environment carrying a poisoned
`HTTP_PROXY`. -/
theorem sys_proxy_env_precedence_witness :
    get_from_environment
      (fun s => if s = "http://p1" then some (.http none "p1")
                else if s = "http://p2" then some (.http none "p2") else none)
      (fun v => if v = "ALL_PROXY" then some "http://p1" else none)
      = [("http", .http none "p1"), ("https", .http none "p1")]
    ∧ get_from_environment
      (fun s => if s = "http://p1" then some (.http none "p1")
                else if s = "http://p2" then some (.http none "p2") else none)
      (fun v => if v = "ALL_PROXY" then some "http://p1"
                else if v = "HTTP_PROXY" then some "http://p2" else none)
      = [("http", .http none "p2"), ("https", .http none "p1")]
    ∧ get_from_environment
      (fun s => if s = "http://p2" then some (.http none "p2") else none)
      (fun v => if v = "REQUEST_METHOD" then some "GET"
                else if v = "HTTP_PROXY" then some "http://p2" else none)
      = get_from_environment
        (fun s => if s = "http://p2" then some (.http none "p2") else none)
        (fun v => if v = "REQUEST_METHOD" then some "GET" else none) := by
  refine ⟨?_, ?_, ?_⟩
  · exact sys_proxy_env_precedence.1 _ (.http none "p1") (by simp)
  · exact sys_proxy_env_precedence.2.1 _ (.http none "p1") (.http none "p2")
      (by simp) (by simp)
  · exact sys_proxy_env_precedence.2.2.1 _ _ _ (by simp [is_cgi])
      (by intro v h1 h2; simp [h1])

/-- Claim C7: the proxy-URL convenience adapter tries strict parsing
first; when the failure does not indicate a missing scheme the original
error is returned; when it does, parsing is retried with `http://`
prefixed, and if the retry also fails the error returned is still the
original one, never the retry's. -/
theorem into_proxy_scheme_original_error :
    (∀ (parseUrl : String → Except UrlError String)
      (schemeParse : String → Except UrlError ProxyScheme)
      (s : String) (e : UrlError),
      parseUrl s = .error e → e.noScheme = false →
      into_proxy_scheme parseUrl schemeParse s = .error e)
    ∧ (∀ (parseUrl : String → Except UrlError String)
      (schemeParse : String → Except UrlError ProxyScheme)
      (s : String) (e e' : UrlError),
      parseUrl s = .error e → e.noScheme = true →
      parseUrl ("http://" ++ s) = .error e' →
      into_proxy_scheme parseUrl schemeParse s = .error e)
    ∧ (∀ (parseUrl : String → Except UrlError String)
      (schemeParse : String → Except UrlError ProxyScheme)
      (s : String) (e : UrlError) (u : String),
      parseUrl s = .error e → e.noScheme = true →
      parseUrl ("http://" ++ s) = .ok u →
      into_proxy_scheme parseUrl schemeParse s = schemeParse u) := by
  refine ⟨?_, ?_, ?_⟩
  · intro parseUrl schemeParse s e h hn
    simp [into_proxy_scheme, h, hn]
  · intro parseUrl schemeParse s e e' h hn h'
    simp [into_proxy_scheme, h, hn, h']
  · intro parseUrl schemeParse s e u h hn h'
    simp [into_proxy_scheme, h, hn, h']

/-- Witness for C7: with a parse function that rejects `bad host` with a
no-scheme error (id 0) and also rejects `http://bad host` with a
different error (id 1), the adapter reports error 0; with one that
rejects `genuine` with a has-scheme error, that error comes straight
back. -/
theorem into_proxy_scheme_original_error_witness :
    into_proxy_scheme
      (fun s => if s = "bad host" then .error ⟨true, 0⟩
                else if s = "http://bad host" then .error ⟨false, 1⟩
                else .ok s)
      (fun u => .ok (.http none u)) "bad host" = .error ⟨true, 0⟩
    ∧ into_proxy_scheme
      (fun s => if s = "genuine" then .error ⟨false, 2⟩ else .ok s)
      (fun u => .ok (.http none u)) "genuine" = .error ⟨false, 2⟩
    ∧ into_proxy_scheme
      (fun s => if s = "plain.host" then .error ⟨true, 3⟩ else .ok s)
      (fun u => .ok (.http none u)) "plain.host"
      = .ok (.http none "http://plain.host") := by
  refine ⟨?_, ?_, ?_⟩
  · exact into_proxy_scheme_original_error.2.1 _ _ "bad host"
      ⟨true, 0⟩ ⟨false, 1⟩ (by simp) rfl (by simp)
  · exact into_proxy_scheme_original_error.1 _ _ "genuine"
      ⟨false, 2⟩ (by simp) rfl
  · exact into_proxy_scheme_original_error.2.2 _ _ "plain.host"
      ⟨true, 3⟩ "http://plain.host" (by simp) rfl (by simp)

/-- Counterexample to claim C8 as stated: `set_custom_http_auth` — a
configuration call reachable through the public `Proxy::custom_http_auth`
— overwrites an explicitly set auth value rather than only filling an
unset slot. -/
theorem proxy_auth_overwrite_counterexample :
    (ProxyScheme.http (some "first") "proxy.example").set_custom_http_auth
        "second"
      = some (ProxyScheme.http (some "second") "proxy.example")
    ∧ ProxyScheme.http (some "second") "proxy.example"
      ≠ ProxyScheme.http (some "first") "proxy.example" := by
  refine ⟨rfl, by decide⟩

/-- Claim C8 (amended): the `if_no_auth` backfill only fills an unset auth
slot and never overwrites an explicit value — in particular the
registry-level auth applied to schemes returned by a custom callback
takes effect only when the returned scheme's auth is unset — while the
explicit setters `set_basic_auth` and `set_custom_http_auth` overwrite
unconditionally. -/
theorem proxy_auth_backfill :
    (∀ (s : ProxyScheme) (update : Option String) (a : String),
      s.maybe_http_auth = some a → s.if_no_auth update = s)
    ∧ (∀ (host : String) (update : Option String),
      (ProxyScheme.http none host).if_no_auth update
        = .http update host
      ∧ (ProxyScheme.https none host).if_no_auth update
        = .https update host)
    ∧ (∀ (addr : String) (auth : Option (String × String)) (rd : Bool)
        (update : Option String),
      (ProxyScheme.socks5 addr auth rd).if_no_auth update
        = .socks5 addr auth rd
      ∧ ProxyScheme.custom.if_no_auth update = .custom)
    ∧ (∀ (c : Custom) (dst : Dst) (s : ProxyScheme) (a : String),
      c.func dst = some (.ok s) → s.maybe_http_auth = some a →
      Custom.call c dst = some s)
    ∧ (∀ (auth : Option String) (host v : String),
      (ProxyScheme.http auth host).set_custom_http_auth v
        = some (.http (some v) host)
      ∧ (ProxyScheme.https auth host).set_custom_http_auth v
        = some (.https (some v) host))
    ∧ (∀ (auth : Option String) (host u p : String),
      (ProxyScheme.http auth host).set_basic_auth u p
        = some (.http (some (encode_basic_auth u p)) host)
      ∧ (ProxyScheme.https auth host).set_basic_auth u p
        = some (.https (some (encode_basic_auth u p)) host)) := by
  refine ⟨?_, ?_, ?_, ?_, ?_, ?_⟩
  · intro s update a h
    cases s <;> simp_all [ProxyScheme.maybe_http_auth, ProxyScheme.if_no_auth]
  · intro host update
    exact ⟨rfl, rfl⟩
  · intro addr auth rd update
    exact ⟨rfl, rfl⟩
  · intro c dst s a hf ha
    have h1 : s.if_no_auth c.auth = s := by
      cases s <;> simp_all [ProxyScheme.maybe_http_auth, ProxyScheme.if_no_auth]
    simp [Custom.call, hf, Except.toOption]
    exact h1
  · intro auth host v
    exact ⟨rfl, rfl⟩
  · intro auth host u p
    exact ⟨rfl, rfl⟩

/-- Witness for C8 (amended): `if_no_auth` leaves an explicitly set auth
value in place, both directly and through a custom callback's backfill. -/
theorem proxy_auth_backfill_witness :
    (ProxyScheme.http (some "keep") "h").if_no_auth (some "new")
      = ProxyScheme.http (some "keep") "h"
    ∧ Custom.call ⟨some "registry", fun _ => some (.ok (.http (some "keep") "h"))⟩
        ⟨"http", "example.com", none⟩
      = some (ProxyScheme.http (some "keep") "h") := by
  constructor
  · exact proxy_auth_backfill.1 (.http (some "keep") "h") (some "new")
      "keep" rfl
  · exact proxy_auth_backfill.2.2.2.1
      ⟨some "registry", fun _ => some (.ok (.http (some "keep") "h"))⟩
      ⟨"http", "example.com", none⟩ (.http (some "keep") "h") "keep" rfl rfl

/-- Claim C10: an environment- or platform-derived proxy value that is
empty, whitespace-only, or unparseable adds no map entry and reports no
error — `insert_proxy` (the single sink for both sources) leaves the map
untouched and merely returns `false`, and so does `insert_from_env`. -/
theorem insert_proxy_silent_ignore :
    (∀ (parse : ParseProxy) (m : List (String × ProxyScheme))
      (scheme addr : String),
      trimIsEmpty addr = true →
      insert_proxy parse m scheme addr = (false, m))
    ∧ (∀ (parse : ParseProxy) (m : List (String × ProxyScheme))
      (scheme addr : String),
      parse addr = none →
      insert_proxy parse m scheme addr = (false, m))
    ∧ (∀ (parse : ParseProxy) (env : Env) (m : List (String × ProxyScheme))
      (scheme var val : String),
      env var = some val →
      (trimIsEmpty val = true ∨ parse val = none) →
      insert_from_env parse env m scheme var = (false, m)) := by
  refine ⟨?_, ?_, ?_⟩
  · intro parse m scheme addr h
    simp [insert_proxy, h]
  · intro parse m scheme addr h
    by_cases ht : trimIsEmpty addr = true <;> simp [insert_proxy, h, ht]
  · intro parse env m scheme var val hv h
    rcases h with h | h
    · simp [insert_from_env, hv, insert_proxy, h]
    · by_cases ht : trimIsEmpty val = true <;>
        simp [insert_from_env, hv, insert_proxy, h, ht]

/-- Witness for C10: a whitespace-only value and an unparseable value,
each through `insert_from_env`, leave the map unchanged. -/
theorem insert_proxy_silent_ignore_witness :
    insert_from_env (fun _ => none)
      (fun v => if v = "HTTP_PROXY" then some "   " else none)
      [("https", .http none "keep")] "http" "HTTP_PROXY"
      = (false, [("https", .http none "keep")])
    ∧ insert_proxy (fun _ => none) [] "http" "file://123465"
      = (false, []) := by
  constructor
  · exact insert_proxy_silent_ignore.2.2 _ _ _ "http" "HTTP_PROXY" "   "
      (by simp) (Or.inl (by decide))
  · exact insert_proxy_silent_ignore.2.1 _ _ "http" "file://123465" rfl

end Reqwest
